import Mathlib

/-!
Verification development for the aoosp OSP telegram library
(ams-OSRAM OSP_aoosp: `aoosp_send.cpp`, `aoosp_exec.cpp`, `aoosp.cpp`).

The byte-level frame codec (the `aoosp_con_xxx` constructor and
`aoosp_des_xxx` destructor functions) is embedded directly over `Nat`
and `List Nat`; machine bytes are natural numbers below 256 and the C
bit macros are translated literally.  The checksum routine `aoosp_crc`
lives in a separate library and is specified only by its contract, so
every codec definition is parametrised by a function
`crc : List Nat -> Nat`.  The high-level `aoosp_exec_xxx` routines talk
to the chain through the `aospi`/`aoosp_send` layer; those calls are
modelled by an oracle environment `Env` that fixes the outcome of each
telegram exchange, and the routines additionally return the list of
telegram calls they performed (their transport trace).
-/

/-- Result codes of the library (`aoresult_t` from `aoresult.h`).  Only the
codes that the embedded functions produce or branch on are named; every
other error value is represented by the catch-all `other` constructor. -/
inductive aoresult where
  | ok
  | osp_arg
  | osp_addr
  | outargnull
  | osp_preamble
  | osp_tid
  | osp_size
  | osp_psi
  | osp_crc
  | spi_noclock
  | sys_cabling
  | sys_id
  | dev_noi2cbridge
  | dev_i2ctimeout
  | dev_i2cnack
  | other (code : Nat)
deriving DecidableEq

/-- Models `BITS_MASK(n)` from `aoosp_send.cpp`: a series of `n` one bits. -/
def BITS_MASK (n : Nat) : Nat := (1 <<< n) - 1

/-- Models `BITS_SLICE(v,lo,hi)` from `aoosp_send.cpp`: bits `[lo..hi)` of `v`. -/
def BITS_SLICE (v lo hi : Nat) : Nat := (v >>> lo) &&& BITS_MASK (hi - lo)

/-- Models `SIZE2PSI(payloadsize)`: payload size to payload size indicator. -/
def SIZE2PSI (payloadsize : Nat) : Nat := if payloadsize < 8 then payloadsize else 7

/-- Models `TELEPSI(tele)`: the PSI bits of a frame, split over bytes 1 and 2. -/
def TELEPSI (data : List Nat) : Nat :=
  BITS_SLICE (data.getD 1 0) 0 2 * 2 + BITS_SLICE (data.getD 2 0) 7 8

/-- Models `AOOSP_ADDR_ISBROADCAST(addr)` from `aoosp_send.h`. -/
def AOOSP_ADDR_ISBROADCAST (addr : Nat) : Bool := addr == 0x000

/-- Models `AOOSP_ADDR_ISUNICAST(addr)` from `aoosp_send.h`. -/
def AOOSP_ADDR_ISUNICAST (addr : Nat) : Bool := 0x001 ≤ addr && addr ≤ 0x3EF

/-- Models `OAOSP_ADDR_ISMULTICAST(addr)` from `aoosp_send.h` (sic). -/
def OAOSP_ADDR_ISMULTICAST (addr : Nat) : Bool := 0x3F0 ≤ addr && addr ≤ 0x3FE

/-- Models `AOOSP_ADDR_ISOK(addr)` from `aoosp_send.h`. -/
def AOOSP_ADDR_ISOK (addr : Nat) : Bool :=
  AOOSP_ADDR_ISBROADCAST addr || AOOSP_ADDR_ISUNICAST addr || OAOSP_ADDR_ISMULTICAST addr

/-- Models `AOOSP_I2CCFG_FLAGS_BUSY` from `aoosp_send.h`. -/
def AOOSP_I2CCFG_FLAGS_BUSY : Nat := 0x01

/-- Models `AOOSP_I2CCFG_FLAGS_NACK` from `aoosp_send.h`. -/
def AOOSP_I2CCFG_FLAGS_NACK : Nat := 0x02

/-- A telegram buffer as handed to the destructor functions
(`aoosp_tele_t`): the raw bytes plus the size the exchange layer reports. -/
structure Tele where
  data : List Nat
  size : Nat
deriving DecidableEq

/-- The shared frame-assembly pattern of every `aoosp_con_xxx` function:
byte 0 is the preamble nibble with the four high address bits, byte 1 the
six low address bits with the two high PSI bits, byte 2 the low PSI bit
with the 7-bit telegram id, then the payload bytes, and finally the
checksum of all preceding bytes. -/
def mkTele (crc : List Nat → Nat) (addr ps tid : Nat) (payload : List Nat) : List Nat :=
  let d0 := 0xA0 ||| BITS_SLICE addr 6 10
  let d1 := BITS_SLICE addr 0 6 <<< 2 ||| BITS_SLICE (SIZE2PSI ps) 1 3
  let d2 := BITS_SLICE (SIZE2PSI ps) 0 1 <<< 7 ||| tid
  d0 :: d1 :: d2 :: (payload ++ [crc (d0 :: d1 :: d2 :: payload)])

/-- Models `aoosp_con_reset`: telegram 00, no payload. -/
def aoosp_con_reset (crc : List Nat → Nat) (addr : Nat) : Except aoresult (List Nat) :=
  if !AOOSP_ADDR_ISOK addr then .error .osp_addr
  else .ok (mkTele crc addr 0 0x00 [])

/-- Models `aoosp_con_initbidir`: telegram 02, no payload (response size 4+2). -/
def aoosp_con_initbidir (crc : List Nat → Nat) (addr : Nat) : Except aoresult (List Nat) :=
  if !AOOSP_ADDR_ISOK addr then .error .osp_addr
  else .ok (mkTele crc addr 0 0x02 [])

/-- Models `aoosp_con_initloop`: telegram 03, no payload (response size 4+2). -/
def aoosp_con_initloop (crc : List Nat → Nat) (addr : Nat) : Except aoresult (List Nat) :=
  if !AOOSP_ADDR_ISOK addr then .error .osp_addr
  else .ok (mkTele crc addr 0 0x03 [])

/-- Models `aoosp_con_readmult`: telegram 0C, no payload (response size 4+2). -/
def aoosp_con_readmult (crc : List Nat → Nat) (addr : Nat) : Except aoresult (List Nat) :=
  if !AOOSP_ADDR_ISOK addr then .error .osp_addr
  else .ok (mkTele crc addr 0 0x0C [])

/-- Models `aoosp_con_setmult`: telegram 0D, payload is the 15-bit group mask in
big-endian order.  The C guard `groups & ~0x7FFF` on a `uint16_t` argument
rejects exactly the values above `0x7FFF`. -/
def aoosp_con_setmult (crc : List Nat → Nat) (addr groups : Nat) : Except aoresult (List Nat) :=
  if !AOOSP_ADDR_ISOK addr then .error .osp_addr
  else if 0x7FFF < groups then .error .osp_arg
  else .ok (mkTele crc addr 2 0x0D [BITS_SLICE groups 8 16, BITS_SLICE groups 0 8])

/-- Models `aoosp_con_i2cread8`: telegram 18, payload device address (shifted),
register address and byte count. -/
def aoosp_con_i2cread8 (crc : List Nat → Nat) (addr daddr7 raddr count : Nat) :
    Except aoresult (List Nat) :=
  if !AOOSP_ADDR_ISOK addr then .error .osp_addr
  else if 127 < daddr7 then .error .osp_arg
  else if count < 1 || 8 < count then .error .osp_arg
  else .ok (mkTele crc addr 3 0x18 [daddr7 <<< 1, raddr, count])

/-- Models `aoosp_con_i2cwrite8`: telegram 19, payload device address (shifted),
register address and `count` data bytes; the OSP frame format forbids
total payload sizes 5 and 7 and the payload cannot exceed 8 bytes. -/
def aoosp_con_i2cwrite8 (crc : List Nat → Nat) (addr daddr7 raddr : Nat)
    (buf : List Nat) (count : Nat) : Except aoresult (List Nat) :=
  if !AOOSP_ADDR_ISOK addr then .error .osp_addr
  else if 127 < daddr7 then .error .osp_arg
  else if count < 1 then .error .osp_arg
  else if 8 < count + 2 then .error .osp_arg
  else if count + 2 == 5 || count + 2 == 7 then .error .osp_arg
  else .ok (mkTele crc addr (2 + count) 0x19
    ([daddr7 <<< 1, raddr] ++ (List.range count).map (fun i => buf.getD i 0)))

/-- Models `aoosp_con_readlast`: telegram 1E, no payload (response size 4+8). -/
def aoosp_con_readlast (crc : List Nat → Nat) (addr : Nat) : Except aoresult (List Nat) :=
  if !AOOSP_ADDR_ISOK addr then .error .osp_addr
  else .ok (mkTele crc addr 0 0x1E [])

/-- Models `aoosp_con_readi2ccfg`: telegram 56, no payload (response size 4+1). -/
def aoosp_con_readi2ccfg (crc : List Nat → Nat) (addr : Nat) : Except aoresult (List Nat) :=
  if !AOOSP_ADDR_ISOK addr then .error .osp_addr
  else .ok (mkTele crc addr 0 0x56 [])

/-- Models `aoosp_con_seti2ccfg`: telegram 57, payload packs the 4-bit flags and
4-bit speed in one byte.  The C guards `flags & ~0x0F` and
`speed & ~0x0F` reject the values above `0x0F`, and a further guard
rejects `speed == 0`. -/
def aoosp_con_seti2ccfg (crc : List Nat → Nat) (addr flags speed : Nat) :
    Except aoresult (List Nat) :=
  if !AOOSP_ADDR_ISOK addr then .error .osp_addr
  else if 0x0F < flags then .error .osp_arg
  else if 0x0F < speed then .error .osp_arg
  else if speed = 0 then .error .osp_arg
  else .ok (mkTele crc addr 1 0x57 [flags <<< 4 ||| speed])

/-- Models `aoosp_con_readotp`: telegram 58, payload the OTP row address
(response size 4+8). -/
def aoosp_con_readotp (crc : List Nat → Nat) (addr otpaddr : Nat) :
    Except aoresult (List Nat) :=
  if !AOOSP_ADDR_ISOK addr then .error .osp_addr
  else if 0x1F < otpaddr then .error .osp_arg
  else .ok (mkTele crc addr 1 0x58 [otpaddr])

/-- Models `aoosp_con_setotp`: telegram 59, payload the 7 data bytes in reversed
(big-endian wire) order followed by the OTP row address:
`tele->data[9-i] = buf[i]` for `i < 7` and `tele->data[10] = otpaddr`. -/
def aoosp_con_setotp (crc : List Nat → Nat) (addr otpaddr : Nat)
    (buf : List Nat) (size : Nat) : Except aoresult (List Nat) :=
  if !AOOSP_ADDR_ISOK addr then .error .osp_addr
  else if 0x1F < otpaddr then .error .osp_arg
  else if size ≠ 7 then .error .osp_arg
  else .ok (mkTele crc addr 8 0x59
    ((List.range 7).map (fun i => buf.getD (6 - i) 0) ++ [otpaddr]))

/-- Models `aoosp_con_settestpw`: telegram 5F, payload the 48-bit password in
host (little-endian) byte order, `memcpy`-ed from the `uint64_t`.  The C
guard `pw & ~0x0000FFFFFFFFFFFF` rejects exactly the values above 48 bits. -/
def aoosp_con_settestpw (crc : List Nat → Nat) (addr pw : Nat) :
    Except aoresult (List Nat) :=
  if !AOOSP_ADDR_ISOK addr then .error .osp_addr
  else if 0x0000FFFFFFFFFFFF < pw then .error .osp_arg
  else .ok (mkTele crc addr 6 0x5F
    ((List.range 6).map (fun i => BITS_SLICE pw (8 * i) (8 * i + 8))))

/-- The shared consistency-check prelude of every `aoosp_des_xxx`
function, in the order the source performs the checks: frame size against
the expected payload size, PSI bits, preamble nibble, telegram id, and
finally the checksum of the whole frame (which must be zero).  Returns
the error of the first failing check, or `none` when all pass. -/
def desChecks (crc : List Nat → Nat) (tele : Tele) (ps tid : Nat) : Option aoresult :=
  if tele.size ≠ 4 + ps then some .osp_size
  else if TELEPSI tele.data ≠ SIZE2PSI ps then some .osp_psi
  else if BITS_SLICE (tele.data.getD 0 0) 4 8 ≠ 0xA then some .osp_preamble
  else if BITS_SLICE (tele.data.getD 2 0) 0 7 ≠ tid then some .osp_tid
  else if crc (tele.data.take tele.size) ≠ 0 then some .osp_crc
  else none

/-- Models `aoosp_des_initbidir`: decodes the INITBIDIR response into
`(last, temp, stat)`; `last` comes from the address bits of the header. -/
def aoosp_des_initbidir (crc : List Nat → Nat) (tele : Tele) :
    Except aoresult (Nat × Nat × Nat) :=
  match desChecks crc tele 2 0x02 with
  | some e => .error e
  | none => .ok
      (BITS_SLICE (tele.data.getD 0 0) 0 4 <<< 6 ||| BITS_SLICE (tele.data.getD 1 0) 2 8,
       tele.data.getD 3 0,
       tele.data.getD 4 0)

/-- Models `aoosp_des_initloop`: decodes the INITLOOP response into
`(last, temp, stat)`. -/
def aoosp_des_initloop (crc : List Nat → Nat) (tele : Tele) :
    Except aoresult (Nat × Nat × Nat) :=
  match desChecks crc tele 2 0x03 with
  | some e => .error e
  | none => .ok
      (BITS_SLICE (tele.data.getD 0 0) 0 4 <<< 6 ||| BITS_SLICE (tele.data.getD 1 0) 2 8,
       tele.data.getD 3 0,
       tele.data.getD 4 0)

/-- Models `aoosp_des_readmult`: decodes the READMULT response into the 16-bit
group mask `(data[3] << 8) | (data[4] << 0)`. -/
def aoosp_des_readmult (crc : List Nat → Nat) (tele : Tele) : Except aoresult Nat :=
  match desChecks crc tele 2 0x0C with
  | some e => .error e
  | none => .ok ((tele.data.getD 3 0) <<< 8 ||| (tele.data.getD 4 0) <<< 0)

/-- Models `aoosp_des_readi2ccfg`: decodes the READI2CCFG response into
`(flags, speed)`, the two nibbles of the single payload byte. -/
def aoosp_des_readi2ccfg (crc : List Nat → Nat) (tele : Tele) :
    Except aoresult (Nat × Nat) :=
  match desChecks crc tele 1 0x56 with
  | some e => .error e
  | none => .ok (BITS_SLICE (tele.data.getD 3 0) 4 8, BITS_SLICE (tele.data.getD 3 0) 0 4)

/-- Models `aoosp_des_readotp`: decodes the READOTP response, copying `size`
bytes out of the 8-byte payload in reversed (wire big-endian to host)
order: `buf[i] = tele->data[10-i]`. -/
def aoosp_des_readotp (crc : List Nat → Nat) (tele : Tele) (size : Nat) :
    Except aoresult (List Nat) :=
  match desChecks crc tele 8 0x58 with
  | some e => .error e
  | none =>
    if size < 1 || 8 < size then .error .osp_arg
    else .ok ((List.range size).map (fun i => tele.data.getD (10 - i) 0))

/-- Models `aoosp_des_readlast`: decodes the READLAST response, copying `size`
bytes out of the end of the 8-byte payload: `buf[i] = tele->data[11-size+i]`. -/
def aoosp_des_readlast (crc : List Nat → Nat) (tele : Tele) (size : Nat) :
    Except aoresult (List Nat) :=
  match desChecks crc tele 8 0x1E with
  | some e => .error e
  | none =>
    if size < 1 || 8 < size then .error .osp_arg
    else .ok ((List.range size).map (fun i => tele.data.getD (11 - size + i) 0))

/-- The transport collaborator of the send layer (`aospi`): `tx` transmits
a frame, `txrx` transmits a frame and receives a response of the expected
size. -/
structure Spi where
  tx : List Nat → aoresult
  txrx : List Nat → Nat → aoresult × List Nat

/-- Models `aoosp_send_i2cwrite8` without its logging: construct the telegram and,
only if construction succeeded, transmit it.  The first failing step's
result is returned; the second component is the list of frames actually
handed to the transport. -/
def aoosp_send_i2cwrite8 (crc : List Nat → Nat) (spi : Spi) (addr daddr7 raddr : Nat)
    (buf : List Nat) (count : Nat) : aoresult × List (List Nat) :=
  match aoosp_con_i2cwrite8 crc addr daddr7 raddr buf count with
  | .error e => (e, [])
  | .ok tele => (spi.tx tele, [tele])

/-- One telegram exchange performed by an `aoosp_exec_xxx` routine, with
the arguments the routine passed to the send layer. -/
inductive Event where
  | reset (addr : Nat)
  | dirmuxloop
  | dirmuxbidir
  | initloop (addr : Nat)
  | initbidir (addr : Nat)
  | settestpw (addr pw : Nat)
  | readotp (addr otpaddr size : Nat)
  | setotp (addr otpaddr : Nat) (buf : List Nat)
  | i2cwrite (addr daddr7 raddr : Nat) (buf : List Nat) (count : Nat)
  | i2cread (addr daddr7 raddr count : Nat)
  | readi2ccfg (addr : Nat)
  | readlast (addr size : Nat)
deriving DecidableEq

/-- Response of the chain to an INITLOOP or INITBIDIR exchange. -/
structure InitResp where
  result : aoresult
  last : Nat
  temp : Nat
  stat : Nat

/-- Oracle for the send layer as seen by the `aoosp_exec_xxx` routines:
each field fixes the outcome of the corresponding `aoosp_send_xxx` call
(result code plus any output parameters).  `testpw` models the process
global read by `aoosp_said_testpw_get()`.  The two RESET call sites of
`aoosp_exec_resetinit` may see different outcomes (`resetA`, `resetB`),
and the repeated READI2CCFG polls are indexed by the number of polls this
routine already performed. -/
structure Env where
  testpw : Nat
  resetA : aoresult
  resetB : aoresult
  initloop : InitResp
  initbidir : InitResp
  settestpw : Nat → Nat → aoresult
  readotp : Nat → Nat → aoresult × List Nat
  setotp : Nat → Nat → List Nat → aoresult
  i2cwrite8 : Nat → Nat → Nat → List Nat → Nat → aoresult
  i2cread8 : Nat → Nat → Nat → Nat → aoresult
  readi2ccfg : Nat → aoresult × Nat × Nat
  readlast : Nat → Nat → aoresult × List Nat

/-- Joint outcome of `aoosp_exec_resetinit`: the returned result, the
values stored through the `last` and `loop` output pointers, the value of
the static `aoosp_exec_resetinit_last_`, and the transport trace. -/
structure ResetInitOut where
  result : aoresult
  last : Nat
  loop : Int
  cache : Nat
  trace : List Event

/-- Models `aoosp_exec_resetinit`: sends RESET and INITLOOP, and on the specific
`aoresult_spi_noclock` outcome falls back to RESET and INITBIDIR; output
parameters and the cached last address are set to fail values (0, -1, 0)
first and only overwritten on a successful initialize. -/
def aoosp_exec_resetinit (env : Env) : ResetInitOut :=
  if env.resetA ≠ .ok then
    ⟨env.resetA, 0x000, -1, 0, [.reset 0x000]⟩
  else if env.initloop.result = .ok then
    ⟨.ok, env.initloop.last, 1, env.initloop.last,
      [.reset 0x000, .dirmuxloop, .initloop 0x001]⟩
  else if env.initloop.result ≠ .spi_noclock then
    ⟨env.initloop.result, 0x000, -1, 0, [.reset 0x000, .dirmuxloop, .initloop 0x001]⟩
  else if env.resetB ≠ .ok then
    ⟨env.resetB, 0x000, -1, 0,
      [.reset 0x000, .dirmuxloop, .initloop 0x001, .reset 0x000]⟩
  else if env.initbidir.result = .ok then
    ⟨.ok, env.initbidir.last, 0, env.initbidir.last,
      [.reset 0x000, .dirmuxloop, .initloop 0x001, .reset 0x000, .dirmuxbidir,
       .initbidir 0x001]⟩
  else if env.initbidir.result ≠ .spi_noclock then
    ⟨env.initbidir.result, 0x000, -1, 0,
      [.reset 0x000, .dirmuxloop, .initloop 0x001, .reset 0x000, .dirmuxbidir,
       .initbidir 0x001]⟩
  else
    ⟨.sys_cabling, 0x000, -1, 0,
      [.reset 0x000, .dirmuxloop, .initloop 0x001, .reset 0x000, .dirmuxbidir,
       .initbidir 0x001]⟩

/-- Models `aoosp_exec_resetinit_last`: returns the recorded address of the last
node, i.e. the static variable left behind by `aoosp_exec_resetinit`. -/
def aoosp_exec_resetinit_last (out : ResetInitOut) : Nat := out.cache

/-- Outcome of `aoosp_exec_setotp`: result code and transport trace. -/
structure SetotpOut where
  result : aoresult
  trace : List Event

/-- Models `aoosp_exec_setotp`: after the customer-area check, acquire the
privilege (SETTESTPW with the configured password), read the 8-byte row,
mask byte 0, write 7 bytes back, and - whenever the acquire succeeded -
revoke the privilege (SETTESTPW with password 0) on every exit path,
ignoring the revoke's own result. -/
def aoosp_exec_setotp (env : Env) (addr otpaddr ormask andmask : Nat) : SetotpOut :=
  if otpaddr < 0x0D ∨ 0x1F < otpaddr then ⟨.osp_arg, []⟩
  else
    let r1 := env.settestpw addr env.testpw
    if r1 ≠ .ok then ⟨r1, [.settestpw addr env.testpw]⟩
    else
      let rd := env.readotp addr otpaddr
      if rd.1 ≠ .ok then
        ⟨rd.1, [.settestpw addr env.testpw, .readotp addr otpaddr 8, .settestpw addr 0]⟩
      else
        let buf := rd.2.set 0 ((rd.2.getD 0 0 &&& andmask) ||| ormask)
        let r3 := env.setotp addr otpaddr (buf.take 7)
        if r3 ≠ .ok then
          ⟨r3, [.settestpw addr env.testpw, .readotp addr otpaddr 8,
                .setotp addr otpaddr (buf.take 7), .settestpw addr 0]⟩
        else
          ⟨.ok, [.settestpw addr env.testpw, .readotp addr otpaddr 8,
                 .setotp addr otpaddr (buf.take 7), .settestpw addr 0]⟩

/-- The busy-poll loop shared by `aoosp_exec_i2cwrite8` and
`aoosp_exec_i2cread8`: while the busy flag is set and tries remain, read
the I2C status register (failing the whole call on a failed read) and
retry.  Returns the flags the loop ended with, plus the poll trace;
`attempt` counts the polls already performed. -/
def aoosp_poll (env : Env) (addr : Nat) :
    Nat → Nat → Nat → Except aoresult Nat × List Event
  | flags, 0, _ => (.ok flags, [])
  | flags, tries + 1, attempt =>
    if flags &&& AOOSP_I2CCFG_FLAGS_BUSY = 0 then (.ok flags, [])
    else
      let rc := env.readi2ccfg attempt
      if rc.1 ≠ .ok then (.error rc.1, [.readi2ccfg addr])
      else
        let rest := aoosp_poll env addr rc.2.1 tries (attempt + 1)
        (rest.1, .readi2ccfg addr :: rest.2)

/-- Models `aoosp_exec_i2cwrite8`: send the I2CWRITE telegram, poll the status
register up to 10 times while busy, then classify the final flags as
timeout, NACK, or success. -/
def aoosp_exec_i2cwrite8 (env : Env) (addr daddr7 raddr : Nat)
    (buf : List Nat) (count : Nat) : aoresult × List Event :=
  let ev0 := Event.i2cwrite addr daddr7 raddr buf count
  let r := env.i2cwrite8 addr daddr7 raddr buf count
  if r ≠ .ok then (r, [ev0])
  else
    let p := aoosp_poll env addr AOOSP_I2CCFG_FLAGS_BUSY 10 0
    match p.1 with
    | .error e => (e, ev0 :: p.2)
    | .ok flags =>
      if flags &&& AOOSP_I2CCFG_FLAGS_BUSY ≠ 0 then (.dev_i2ctimeout, ev0 :: p.2)
      else if flags &&& AOOSP_I2CCFG_FLAGS_NACK ≠ 0 then (.dev_i2cnack, ev0 :: p.2)
      else (.ok, ev0 :: p.2)

/-- Models `aoosp_exec_i2cread8`: send the I2CREAD telegram, poll the status
register up to 10 times while busy, classify the final flags, and on
success fetch the captured bytes with READLAST. -/
def aoosp_exec_i2cread8 (env : Env) (addr daddr7 raddr count : Nat) :
    aoresult × List Event :=
  let ev0 := Event.i2cread addr daddr7 raddr count
  let r := env.i2cread8 addr daddr7 raddr count
  if r ≠ .ok then (r, [ev0])
  else
    let p := aoosp_poll env addr AOOSP_I2CCFG_FLAGS_BUSY 10 0
    match p.1 with
    | .error e => (e, ev0 :: p.2)
    | .ok flags =>
      if flags &&& AOOSP_I2CCFG_FLAGS_BUSY ≠ 0 then (.dev_i2ctimeout, ev0 :: p.2)
      else if flags &&& AOOSP_I2CCFG_FLAGS_NACK ≠ 0 then (.dev_i2cnack, ev0 :: p.2)
      else
        ((env.readlast addr count).1, ev0 :: p.2 ++ [.readlast addr count])

/-- Models `BITS_SLICE` as plain division and remainder. -/
theorem BITS_SLICE_eq (v lo hi : Nat) : BITS_SLICE v lo hi = v / 2 ^ lo % 2 ^ (hi - lo) := by
  unfold BITS_SLICE BITS_MASK
  rw [Nat.shiftRight_eq_div_pow, Nat.one_shiftLeft, Nat.and_pow_two_sub_one_eq_mod]

/-- Oring a shifted value with a small value is addition. -/
theorem lor_shift_eq_add (a b k : Nat) (hb : b < 2 ^ k) : a <<< k ||| b = a * 2 ^ k + b := by
  rw [Nat.shiftLeft_eq, Nat.mul_comm, ← Nat.mul_add_lt_is_or hb]

/-- Oring the preamble byte `0xA0` with a nibble is addition. -/
theorem lor_A0_eq_add (b : Nat) (hb : b < 16) : 0xA0 ||| b = 160 + b := by
  have h := Nat.mul_add_lt_is_or (i := 4) (b := b) (by omega) 10
  norm_num at h
  exact h.symm

/-- For payload sizes up to 8, `SIZE2PSI` is `min payloadsize 7`. -/
theorem SIZE2PSI_eq_min (ps : Nat) (h : ps ≤ 8) : SIZE2PSI ps = min ps 7 := by
  unfold SIZE2PSI; split <;> omega

/-- A legal telegram address fits in 10 bits. -/
theorem addr_lt_of_isok (addr : Nat) (h : AOOSP_ADDR_ISOK addr = true) : addr < 1024 := by
  unfold AOOSP_ADDR_ISOK AOOSP_ADDR_ISBROADCAST AOOSP_ADDR_ISUNICAST
    OAOSP_ADDR_ISMULTICAST at h
  simp only [Bool.or_eq_true, beq_iff_eq, Bool.and_eq_true, decide_eq_true_eq] at h
  omega

/-- The frame invariant of the claim: the frame is the payload size plus
4 bytes long (hence 4..12 bytes), its PSI field encodes
`min payload_size 7`, and its final byte is the checksum of all
preceding bytes. -/
def teleWF (crc : List Nat → Nat) (ps : Nat) (t : List Nat) : Prop :=
  t.length = ps + 4 ∧ 4 ≤ t.length ∧ t.length ≤ 12 ∧
  TELEPSI t = min ps 7 ∧
  t.getLast? = some (crc (t.take (t.length - 1)))

/-- Every frame assembled by the shared constructor pattern satisfies the
frame invariant. -/
theorem mkTele_wf (crc : List Nat → Nat) (addr ps tid : Nat) (payload : List Nat)
    (hps : ps ≤ 8) (htid : tid < 128)
    (hlen : payload.length = ps) :
    teleWF crc ps (mkTele crc addr ps tid payload) := by
  have hqmin : SIZE2PSI ps = min ps 7 := SIZE2PSI_eq_min ps hps
  have hq7 : SIZE2PSI ps ≤ 7 := by unfold SIZE2PSI; split <;> omega
  unfold mkTele teleWF
  simp only []
  refine ⟨?_, ?_, ?_, ?_, ?_⟩
  · simp [hlen]
  · simp [hlen]
  · simp [hlen]; omega
  · unfold TELEPSI
    simp only [List.getD_cons_succ, List.getD_cons_zero]
    have hb1 : BITS_SLICE (SIZE2PSI ps) 1 3 < 2 ^ 2 := by
      rw [BITS_SLICE_eq]; exact Nat.mod_lt _ (by norm_num)
    have hb2 : tid < 2 ^ 7 := by norm_num; omega
    rw [lor_shift_eq_add _ _ 2 hb1, lor_shift_eq_add _ _ 7 hb2]
    simp only [BITS_SLICE_eq]
    norm_num
    omega
  · rw [show ∀ c : Nat, (0xA0 ||| BITS_SLICE addr 6 10) ::
        (BITS_SLICE addr 0 6 <<< 2 ||| BITS_SLICE (SIZE2PSI ps) 1 3) ::
        (BITS_SLICE (SIZE2PSI ps) 0 1 <<< 7 ||| tid) :: (payload ++ [c]) =
        ((0xA0 ||| BITS_SLICE addr 6 10) ::
        (BITS_SLICE addr 0 6 <<< 2 ||| BITS_SLICE (SIZE2PSI ps) 1 3) ::
        (BITS_SLICE (SIZE2PSI ps) 0 1 <<< 7 ||| tid) :: payload) ++ [c]
        from fun c => by simp]
    rw [List.getLast?_concat, List.take_left' (by simp)]

/-- The 7-byte buffer `aoosp_exec_setotp` writes back: the row returned by
the READOTP exchange with byte 0 replaced by `(old & andmask) | ormask`,
truncated to 7 bytes. -/
def setotpWriteBuf (env : Env) (addr otpaddr ormask andmask : Nat) : List Nat :=
  ((env.readotp addr otpaddr).2.set 0
    ((env.readotp addr otpaddr).2.getD 0 0 &&& andmask ||| ormask)).take 7

/-- A trivial checksum collaborator used for concrete evaluations; it
satisfies the verification contract `crc (l ++ [crc l]) = 0`. -/
def crc0 : List Nat → Nat := fun _ => 0

/-- A benign oracle: every exchange succeeds. -/
def env0 : Env where
  testpw := 0x42
  resetA := .ok
  resetB := .ok
  initloop := ⟨.ok, 5, 0x30, 0x40⟩
  initbidir := ⟨.ok, 7, 0x30, 0x40⟩
  settestpw := fun _ _ => .ok
  readotp := fun _ _ => (.ok, [1, 2, 3, 4, 5, 6, 7, 8])
  setotp := fun _ _ _ => .ok
  i2cwrite8 := fun _ _ _ _ _ => .ok
  i2cread8 := fun _ _ _ _ => .ok
  readi2ccfg := fun _ => (.ok, 0, 0x0C)
  readlast := fun _ _ => (.ok, [9])

/-- Claim C1: in `aoosp_exec_setotp`, whenever the acquire step (SETTESTPW
with the configured secret) succeeds, the revoke call (SETTESTPW with
password 0) is the last telegram issued before returning, on every path,
and the returned result is the first-encountered failure of the
read/write steps (or ok), never the revoke call's own outcome. -/
theorem claim_C1_setotp_release (env : Env) (addr otpaddr ormask andmask : Nat)
    (h1 : 0x0D ≤ otpaddr) (h2 : otpaddr ≤ 0x1F)
    (hacq : env.settestpw addr env.testpw = aoresult.ok) :
    (aoosp_exec_setotp env addr otpaddr ormask andmask).trace.getLast? =
      some (Event.settestpw addr 0) ∧
    (aoosp_exec_setotp env addr otpaddr ormask andmask).result =
      (if (env.readotp addr otpaddr).1 ≠ aoresult.ok then (env.readotp addr otpaddr).1
       else if env.setotp addr otpaddr (setotpWriteBuf env addr otpaddr ormask andmask) ≠
           aoresult.ok
         then env.setotp addr otpaddr (setotpWriteBuf env addr otpaddr ormask andmask)
       else aoresult.ok) := by
  unfold aoosp_exec_setotp setotpWriteBuf
  rw [if_neg (by omega)]
  simp only [hacq, ne_eq, not_true_eq_false, if_false]
  split_ifs <;> simp_all

/-- Closed instance of claim C1 at a concrete oracle. -/
theorem claim_C1_setotp_release_witness :
    (aoosp_exec_setotp env0 1 0x0D 0x01 0xFF).trace.getLast? =
      some (Event.settestpw 1 0) ∧
    (aoosp_exec_setotp env0 1 0x0D 0x01 0xFF).result =
      (if (env0.readotp 1 0x0D).1 ≠ aoresult.ok then (env0.readotp 1 0x0D).1
       else if env0.setotp 1 0x0D (setotpWriteBuf env0 1 0x0D 0x01 0xFF) ≠ aoresult.ok
         then env0.setotp 1 0x0D (setotpWriteBuf env0 1 0x0D 0x01 0xFF)
       else aoresult.ok) :=
  claim_C1_setotp_release env0 1 0x0D 0x01 0xFF (by decide) (by decide) rfl

/-- Claim C2: `aoosp_exec_setotp` rejects any row address outside
0x0D..0x1F with `aoresult_osp_arg` before any transport activity, for
every node address and any masks. -/
theorem claim_C2_setotp_rowguard (env : Env) (addr otpaddr ormask andmask : Nat)
    (h : otpaddr < 0x0D ∨ 0x1F < otpaddr) :
    (aoosp_exec_setotp env addr otpaddr ormask andmask).result = aoresult.osp_arg ∧
    (aoosp_exec_setotp env addr otpaddr ormask andmask).trace = [] := by
  unfold aoosp_exec_setotp
  rw [if_pos h]
  exact ⟨rfl, rfl⟩

/-- Closed instance of claim C2 at a concrete oracle and row address. -/
theorem claim_C2_setotp_rowguard_witness :
    (aoosp_exec_setotp env0 0x3FF 0x20 0xAB 0xCD).result = aoresult.osp_arg ∧
    (aoosp_exec_setotp env0 0x3FF 0x20 0xAB 0xCD).trace = [] :=
  claim_C2_setotp_rowguard env0 0x3FF 0x20 0xAB 0xCD (Or.inr (by decide))

/-- Claim C3: `aoosp_exec_resetinit` first resets and tries INITLOOP at
address 1; on success it records length and direction loop and never
attempts INITBIDIR; it falls back to a second reset and INITBIDIR only
when INITLOOP fails with `aoresult_spi_noclock`; if INITBIDIR also fails
with that error it returns `aoresult_sys_cabling`; any other error of any
step is returned as-is. -/
theorem claim_C3_resetinit_fallback (env : Env) :
    (env.resetA ≠ aoresult.ok →
      (aoosp_exec_resetinit env).result = env.resetA ∧
      (aoosp_exec_resetinit env).trace = [Event.reset 0x000]) ∧
    (env.resetA = aoresult.ok → env.initloop.result = aoresult.ok →
      (aoosp_exec_resetinit env).result = aoresult.ok ∧
      (aoosp_exec_resetinit env).last = env.initloop.last ∧
      (aoosp_exec_resetinit env).loop = 1 ∧
      Event.initbidir 0x001 ∉ (aoosp_exec_resetinit env).trace ∧
      Event.dirmuxbidir ∉ (aoosp_exec_resetinit env).trace) ∧
    (env.resetA = aoresult.ok → env.initloop.result ≠ aoresult.ok →
      env.initloop.result ≠ aoresult.spi_noclock →
      (aoosp_exec_resetinit env).result = env.initloop.result ∧
      Event.initbidir 0x001 ∉ (aoosp_exec_resetinit env).trace) ∧
    (env.resetA = aoresult.ok → env.initloop.result = aoresult.spi_noclock →
      env.resetB ≠ aoresult.ok →
      (aoosp_exec_resetinit env).result = env.resetB) ∧
    (env.resetA = aoresult.ok → env.initloop.result = aoresult.spi_noclock →
      env.resetB = aoresult.ok → env.initbidir.result = aoresult.ok →
      (aoosp_exec_resetinit env).result = aoresult.ok ∧
      (aoosp_exec_resetinit env).last = env.initbidir.last ∧
      (aoosp_exec_resetinit env).loop = 0 ∧
      Event.initbidir 0x001 ∈ (aoosp_exec_resetinit env).trace) ∧
    (env.resetA = aoresult.ok → env.initloop.result = aoresult.spi_noclock →
      env.resetB = aoresult.ok → env.initbidir.result ≠ aoresult.ok →
      env.initbidir.result ≠ aoresult.spi_noclock →
      (aoosp_exec_resetinit env).result = env.initbidir.result) ∧
    (env.resetA = aoresult.ok → env.initloop.result = aoresult.spi_noclock →
      env.resetB = aoresult.ok → env.initbidir.result = aoresult.spi_noclock →
      (aoosp_exec_resetinit env).result = aoresult.sys_cabling) := by
  refine ⟨?_, ?_, ?_, ?_, ?_, ?_, ?_⟩ <;> intros <;>
    unfold aoosp_exec_resetinit <;> split_ifs <;> simp_all

/-- Closed instance of claim C3: a chain answering INITLOOP never sees an
INITBIDIR attempt. -/
theorem claim_C3_resetinit_fallback_witness :
    (aoosp_exec_resetinit env0).result = aoresult.ok ∧
    (aoosp_exec_resetinit env0).last = env0.initloop.last ∧
    (aoosp_exec_resetinit env0).loop = 1 ∧
    Event.initbidir 0x001 ∉ (aoosp_exec_resetinit env0).trace ∧
    Event.dirmuxbidir ∉ (aoosp_exec_resetinit env0).trace :=
  (claim_C3_resetinit_fallback env0).2.1 rfl rfl

/-- Claim C10: `aoosp_exec_resetinit` records the fail values first, so on
any error return the caller's output variables hold 0 and -1 and the
cached last-node address read back by `aoosp_exec_resetinit_last` is 0. -/
theorem claim_C10_resetinit_failvalues (env : Env)
    (h : (aoosp_exec_resetinit env).result ≠ aoresult.ok) :
    (aoosp_exec_resetinit env).last = 0x000 ∧
    (aoosp_exec_resetinit env).loop = -1 ∧
    aoosp_exec_resetinit_last (aoosp_exec_resetinit env) = 0 := by
  unfold aoosp_exec_resetinit aoosp_exec_resetinit_last at *
  split_ifs at * <;> simp_all

/-- An oracle on which discovery fails at the very first reset. -/
def envResetFail : Env :=
  { env0 with resetA := .other 3 }

/-- Closed instance of claim C10 at a concrete failing oracle. -/
theorem claim_C10_resetinit_failvalues_witness :
    (aoosp_exec_resetinit envResetFail).last = 0x000 ∧
    (aoosp_exec_resetinit envResetFail).loop = -1 ∧
    aoosp_exec_resetinit_last (aoosp_exec_resetinit envResetFail) = 0 :=
  claim_C10_resetinit_failvalues envResetFail (by decide)

/-- The poll loop performs at most `tries` status reads. -/
theorem aoosp_poll_length (env : Env) (addr : Nat) :
    ∀ tries flags attempt, (aoosp_poll env addr flags tries attempt).2.length ≤ tries := by
  intro tries
  induction tries with
  | zero => intro flags attempt; simp [aoosp_poll]
  | succ t ih =>
    intro flags attempt
    by_cases h1 : flags &&& AOOSP_I2CCFG_FLAGS_BUSY = 0
    · simp [aoosp_poll, h1]
    · by_cases h2 : (env.readi2ccfg attempt).1 = aoresult.ok
      · have hrec := ih (env.readi2ccfg attempt).2.1 (attempt + 1)
        simp only [aoosp_poll, h1, if_neg, ite_false, h2, ne_eq, not_true_eq_false,
          if_false, List.length_cons]
        omega
      · simp [aoosp_poll, h1, h2]

/-- If the status register reads back busy (and ok) throughout a window of
`tries` polls, the loop consumes them all and ends still busy. -/
theorem aoosp_poll_busy (env : Env) (addr : Nat) :
    ∀ tries attempt flags, flags &&& AOOSP_I2CCFG_FLAGS_BUSY ≠ 0 →
    (∀ k, attempt ≤ k → k < attempt + tries →
      (env.readi2ccfg k).1 = aoresult.ok ∧
      (env.readi2ccfg k).2.1 &&& AOOSP_I2CCFG_FLAGS_BUSY ≠ 0) →
    ∃ f, aoosp_poll env addr flags tries attempt =
        (.ok f, List.replicate tries (Event.readi2ccfg addr)) ∧
      f &&& AOOSP_I2CCFG_FLAGS_BUSY ≠ 0 := by
  intro tries
  induction tries with
  | zero => intro attempt flags hb _; exact ⟨flags, by simp [aoosp_poll], hb⟩
  | succ t ih =>
    intro attempt flags hb hall
    have hk := hall attempt (Nat.le_refl _) (by omega)
    obtain ⟨f, hf, hbf⟩ := ih (attempt + 1) (env.readi2ccfg attempt).2.1 hk.2
      (fun k hk1 hk2 => hall k (by omega) (by omega))
    refine ⟨f, ?_, hbf⟩
    simp [aoosp_poll, hb, hk.1, hf, List.replicate_succ]

/-- If the status register reads back busy for the first `n` polls of the
window and not busy on poll `n` (with `n` inside the budget), the loop
stops after exactly `n + 1` polls with the flags of that last poll. -/
theorem aoosp_poll_success (env : Env) (addr : Nat) :
    ∀ n tries attempt flags, n < tries →
    flags &&& AOOSP_I2CCFG_FLAGS_BUSY ≠ 0 →
    (∀ k, attempt ≤ k → k < attempt + n →
      (env.readi2ccfg k).1 = aoresult.ok ∧
      (env.readi2ccfg k).2.1 &&& AOOSP_I2CCFG_FLAGS_BUSY ≠ 0) →
    (env.readi2ccfg (attempt + n)).1 = aoresult.ok →
    (env.readi2ccfg (attempt + n)).2.1 &&& AOOSP_I2CCFG_FLAGS_BUSY = 0 →
    aoosp_poll env addr flags tries attempt =
      (.ok (env.readi2ccfg (attempt + n)).2.1,
       List.replicate (n + 1) (Event.readi2ccfg addr)) := by
  intro n
  induction n with
  | zero =>
    intro tries attempt flags htr hb hall hok hidle
    simp only [Nat.add_zero] at hok hidle
    match tries, htr with
    | t + 1, _ =>
      have hrest : aoosp_poll env addr (env.readi2ccfg attempt).2.1 t (attempt + 1) =
          (.ok (env.readi2ccfg attempt).2.1, []) := by
        cases t with
        | zero => simp [aoosp_poll]
        | succ u => simp [aoosp_poll, hidle]
      simp [aoosp_poll, hb, hok, hrest]
  | succ m ih =>
    intro tries attempt flags htr hb hall hok hidle
    match tries, htr with
    | t + 1, _ =>
      have hk := hall attempt (Nat.le_refl _) (by omega)
      have hshift : attempt + 1 + m = attempt + (m + 1) := by omega
      have hrec := ih t (attempt + 1) (env.readi2ccfg attempt).2.1 (by omega) hk.2
        (fun k h1 h2 => hall k (by omega) (by omega))
        (by rw [hshift]; exact hok) (by rw [hshift]; exact hidle)
      rw [hshift] at hrec
      simp [aoosp_poll, hb, hk.1, hrec, List.replicate_succ]

/-- Recognizes the status-register poll events of a transport trace. -/
def isPollEvent : Event → Bool
  | .readi2ccfg _ => true
  | _ => false

/-- Claim C4: in `aoosp_exec_i2cwrite8` and `aoosp_exec_i2cread8`, after
the bridge command is sent successfully the status register is polled at
most 10 times; busy through the whole budget yields the I2C timeout
error; ending not busy with the NACK flag set yields the I2C NACK error
after exactly the polls used so far; ending with both flags clear makes
the transaction phase succeed (for the read procedure the result then
comes from the READLAST fetch).  In particular busy for 9 polls and
idle-success on the 10th yields success. -/
theorem claim_C4_i2c_poll_budget :
    (∀ env addr daddr7 raddr buf count,
      env.i2cwrite8 addr daddr7 raddr buf count = aoresult.ok →
      (∀ k, k < 10 → (env.readi2ccfg k).1 = aoresult.ok ∧
        (env.readi2ccfg k).2.1 &&& AOOSP_I2CCFG_FLAGS_BUSY ≠ 0) →
      aoosp_exec_i2cwrite8 env addr daddr7 raddr buf count =
        (aoresult.dev_i2ctimeout,
         Event.i2cwrite addr daddr7 raddr buf count ::
           List.replicate 10 (Event.readi2ccfg addr))) ∧
    (∀ env addr daddr7 raddr buf count n,
      env.i2cwrite8 addr daddr7 raddr buf count = aoresult.ok →
      n < 10 →
      (∀ k, k < n → (env.readi2ccfg k).1 = aoresult.ok ∧
        (env.readi2ccfg k).2.1 &&& AOOSP_I2CCFG_FLAGS_BUSY ≠ 0) →
      (env.readi2ccfg n).1 = aoresult.ok →
      (env.readi2ccfg n).2.1 &&& AOOSP_I2CCFG_FLAGS_BUSY = 0 →
      (env.readi2ccfg n).2.1 &&& AOOSP_I2CCFG_FLAGS_NACK = 0 →
      aoosp_exec_i2cwrite8 env addr daddr7 raddr buf count =
        (aoresult.ok,
         Event.i2cwrite addr daddr7 raddr buf count ::
           List.replicate (n + 1) (Event.readi2ccfg addr))) ∧
    (∀ env addr daddr7 raddr buf count n,
      env.i2cwrite8 addr daddr7 raddr buf count = aoresult.ok →
      n < 10 →
      (∀ k, k < n → (env.readi2ccfg k).1 = aoresult.ok ∧
        (env.readi2ccfg k).2.1 &&& AOOSP_I2CCFG_FLAGS_BUSY ≠ 0) →
      (env.readi2ccfg n).1 = aoresult.ok →
      (env.readi2ccfg n).2.1 &&& AOOSP_I2CCFG_FLAGS_BUSY = 0 →
      (env.readi2ccfg n).2.1 &&& AOOSP_I2CCFG_FLAGS_NACK ≠ 0 →
      aoosp_exec_i2cwrite8 env addr daddr7 raddr buf count =
        (aoresult.dev_i2cnack,
         Event.i2cwrite addr daddr7 raddr buf count ::
           List.replicate (n + 1) (Event.readi2ccfg addr))) ∧
    (∀ env addr daddr7 raddr buf count,
      ((aoosp_exec_i2cwrite8 env addr daddr7 raddr buf count).2.countP
        (fun e => isPollEvent e)) ≤ 10) ∧
    (∀ env addr daddr7 raddr count,
      env.i2cread8 addr daddr7 raddr count = aoresult.ok →
      (∀ k, k < 10 → (env.readi2ccfg k).1 = aoresult.ok ∧
        (env.readi2ccfg k).2.1 &&& AOOSP_I2CCFG_FLAGS_BUSY ≠ 0) →
      aoosp_exec_i2cread8 env addr daddr7 raddr count =
        (aoresult.dev_i2ctimeout,
         Event.i2cread addr daddr7 raddr count ::
           List.replicate 10 (Event.readi2ccfg addr))) ∧
    (∀ env addr daddr7 raddr count n,
      env.i2cread8 addr daddr7 raddr count = aoresult.ok →
      n < 10 →
      (∀ k, k < n → (env.readi2ccfg k).1 = aoresult.ok ∧
        (env.readi2ccfg k).2.1 &&& AOOSP_I2CCFG_FLAGS_BUSY ≠ 0) →
      (env.readi2ccfg n).1 = aoresult.ok →
      (env.readi2ccfg n).2.1 &&& AOOSP_I2CCFG_FLAGS_BUSY = 0 →
      (env.readi2ccfg n).2.1 &&& AOOSP_I2CCFG_FLAGS_NACK = 0 →
      aoosp_exec_i2cread8 env addr daddr7 raddr count =
        ((env.readlast addr count).1,
         Event.i2cread addr daddr7 raddr count ::
           (List.replicate (n + 1) (Event.readi2ccfg addr) ++
            [Event.readlast addr count]))) ∧
    (∀ env addr daddr7 raddr count n,
      env.i2cread8 addr daddr7 raddr count = aoresult.ok →
      n < 10 →
      (∀ k, k < n → (env.readi2ccfg k).1 = aoresult.ok ∧
        (env.readi2ccfg k).2.1 &&& AOOSP_I2CCFG_FLAGS_BUSY ≠ 0) →
      (env.readi2ccfg n).1 = aoresult.ok →
      (env.readi2ccfg n).2.1 &&& AOOSP_I2CCFG_FLAGS_BUSY = 0 →
      (env.readi2ccfg n).2.1 &&& AOOSP_I2CCFG_FLAGS_NACK ≠ 0 →
      aoosp_exec_i2cread8 env addr daddr7 raddr count =
        (aoresult.dev_i2cnack,
         Event.i2cread addr daddr7 raddr count ::
           List.replicate (n + 1) (Event.readi2ccfg addr))) ∧
    (∀ env addr daddr7 raddr count,
      ((aoosp_exec_i2cread8 env addr daddr7 raddr count).2.countP
        (fun e => isPollEvent e)) ≤ 10) := by
  refine ⟨?_, ?_, ?_, ?_, ?_, ?_, ?_, ?_⟩
  · intro env addr daddr7 raddr buf count hsend hall
    obtain ⟨f, hf, hbf⟩ := aoosp_poll_busy env addr 10 0 AOOSP_I2CCFG_FLAGS_BUSY
      (by decide) (fun k h1 h2 => hall k (by omega))
    unfold aoosp_exec_i2cwrite8
    simp [hsend, hf, hbf]
  · intro env addr daddr7 raddr buf count n hsend hn hall hok hbz hnz
    have hp := aoosp_poll_success env addr n 10 0 AOOSP_I2CCFG_FLAGS_BUSY hn
      (by decide) (fun k h1 h2 => hall k (by omega))
      (by rw [Nat.zero_add]; exact hok) (by rw [Nat.zero_add]; exact hbz)
    rw [Nat.zero_add] at hp
    unfold aoosp_exec_i2cwrite8
    simp [hsend, hp, hbz, hnz]
  · intro env addr daddr7 raddr buf count n hsend hn hall hok hbz hnz
    have hp := aoosp_poll_success env addr n 10 0 AOOSP_I2CCFG_FLAGS_BUSY hn
      (by decide) (fun k h1 h2 => hall k (by omega))
      (by rw [Nat.zero_add]; exact hok) (by rw [Nat.zero_add]; exact hbz)
    rw [Nat.zero_add] at hp
    unfold aoosp_exec_i2cwrite8
    simp [hsend, hp, hbz, hnz]
  · intro env addr daddr7 raddr buf count
    have hlen := aoosp_poll_length env addr 10 AOOSP_I2CCFG_FLAGS_BUSY 0
    unfold aoosp_exec_i2cwrite8
    rcases hq : aoosp_poll env addr AOOSP_I2CCFG_FLAGS_BUSY 10 0 with ⟨pr, pe⟩
    rw [hq] at hlen
    have hc2 : List.countP (fun e => isPollEvent e) pe ≤ 10 := by
      refine Nat.le_trans (List.countP_le_length _) ?_
      simpa using hlen
    by_cases hs : env.i2cwrite8 addr daddr7 raddr buf count = aoresult.ok
    · cases pr <;> simp [hs, isPollEvent] <;> (try split_ifs) <;>
        simp_all [isPollEvent]
    · simp [hs, isPollEvent]
  · intro env addr daddr7 raddr count hsend hall
    obtain ⟨f, hf, hbf⟩ := aoosp_poll_busy env addr 10 0 AOOSP_I2CCFG_FLAGS_BUSY
      (by decide) (fun k h1 h2 => hall k (by omega))
    unfold aoosp_exec_i2cread8
    simp [hsend, hf, hbf]
  · intro env addr daddr7 raddr count n hsend hn hall hok hbz hnz
    have hp := aoosp_poll_success env addr n 10 0 AOOSP_I2CCFG_FLAGS_BUSY hn
      (by decide) (fun k h1 h2 => hall k (by omega))
      (by rw [Nat.zero_add]; exact hok) (by rw [Nat.zero_add]; exact hbz)
    rw [Nat.zero_add] at hp
    unfold aoosp_exec_i2cread8
    simp [hsend, hp, hbz, hnz]
  · intro env addr daddr7 raddr count n hsend hn hall hok hbz hnz
    have hp := aoosp_poll_success env addr n 10 0 AOOSP_I2CCFG_FLAGS_BUSY hn
      (by decide) (fun k h1 h2 => hall k (by omega))
      (by rw [Nat.zero_add]; exact hok) (by rw [Nat.zero_add]; exact hbz)
    rw [Nat.zero_add] at hp
    unfold aoosp_exec_i2cread8
    simp [hsend, hp, hbz, hnz]
  · intro env addr daddr7 raddr count
    have hlen := aoosp_poll_length env addr 10 AOOSP_I2CCFG_FLAGS_BUSY 0
    unfold aoosp_exec_i2cread8
    rcases hq : aoosp_poll env addr AOOSP_I2CCFG_FLAGS_BUSY 10 0 with ⟨pr, pe⟩
    rw [hq] at hlen
    have hc2 : List.countP (fun e => isPollEvent e) pe ≤ 10 := by
      refine Nat.le_trans (List.countP_le_length _) ?_
      simpa using hlen
    by_cases hs : env.i2cread8 addr daddr7 raddr count = aoresult.ok
    · cases pr <;> simp [hs, isPollEvent] <;> (try split_ifs) <;>
        simp_all [isPollEvent]
    · simp [hs, isPollEvent]

/-- An oracle whose I2C transaction stays busy for 9 polls and reports
idle success on the 10th. -/
def envBusy9 : Env :=
  { env0 with readi2ccfg := fun k => if k < 9 then (.ok, 1, 0x0C) else (.ok, 0, 0x0C) }

/-- Closed instance of claim C4: busy for 9 polls then idle on the 10th
makes the I2C write succeed after exactly 10 polls. -/
theorem claim_C4_i2c_poll_budget_witness :
    aoosp_exec_i2cwrite8 envBusy9 1 0x50 0x10 [0xAB] 1 =
      (aoresult.ok,
       Event.i2cwrite 1 0x50 0x10 [0xAB] 1 ::
         List.replicate 10 (Event.readi2ccfg 1)) :=
  claim_C4_i2c_poll_budget.2.1 envBusy9 1 0x50 0x10 [0xAB] 1 9 rfl (by decide)
    (by decide) (by decide) (by decide) (by decide)

/-- Claim C5: with a legal address and device address, the I2CWRITE
encoder rejects - with `aoresult_osp_arg` and with nothing handed to the
transport - exactly the byte counts outside {1, 2, 4, 6} (count below 1,
total payload above 8, and the illegal total payload sizes 5 and 7). -/
theorem claim_C5_i2cwrite_count_gate (crc : List Nat → Nat) (spi : Spi)
    (addr daddr7 raddr : Nat) (buf : List Nat) (count : Nat)
    (haddr : AOOSP_ADDR_ISOK addr = true) (hd : daddr7 ≤ 127) :
    (aoosp_con_i2cwrite8 crc addr daddr7 raddr buf count =
        Except.error aoresult.osp_arg ∧
     aoosp_send_i2cwrite8 crc spi addr daddr7 raddr buf count =
        (aoresult.osp_arg, [])) ↔
    ¬(count = 1 ∨ count = 2 ∨ count = 4 ∨ count = 6) := by
  constructor
  · intro h hmem
    rcases hmem with h1 | h1 | h1 | h1 <;> subst h1 <;>
      · have hc := h.1
        unfold aoosp_con_i2cwrite8 at hc
        rw [haddr] at hc
        rw [if_neg (by simp), if_neg (by omega)] at hc
        simp at hc
  · intro hmem
    have hcon : aoosp_con_i2cwrite8 crc addr daddr7 raddr buf count =
        Except.error aoresult.osp_arg := by
      unfold aoosp_con_i2cwrite8
      rw [haddr]
      rw [if_neg (by simp), if_neg (by omega)]
      have h0 : count = 0 ∨ count = 3 ∨ count = 5 ∨ 7 ≤ count := by omega
      rcases h0 with h | h | h | h
      · rw [if_pos (by omega)]
      · subst h; simp
      · subst h; simp
      · rw [if_neg (by omega), if_pos (by omega)]
    refine ⟨hcon, ?_⟩
    unfold aoosp_send_i2cwrite8
    rw [hcon]

/-- A transport stub for concrete evaluations: transmission succeeds and
responses are all-zero frames. -/
def spi0 : Spi where
  tx := fun _ => .ok
  txrx := fun _ n => (.ok, List.replicate n 0)

/-- Closed instance of claim C5: a 3-byte write (total payload 5) is
rejected at encode time with nothing transmitted. -/
theorem claim_C5_i2cwrite_count_gate_witness :
    aoosp_con_i2cwrite8 crc0 1 0x50 0x10 [1, 2, 3] 3 =
      Except.error aoresult.osp_arg ∧
    aoosp_send_i2cwrite8 crc0 spi0 1 0x50 0x10 [1, 2, 3] 3 =
      (aoresult.osp_arg, []) :=
  (claim_C5_i2cwrite_count_gate crc0 spi0 1 0x50 0x10 [1, 2, 3] 3 rfl
    (by decide)).2 (by decide)

/-- Claim C6: every telegram successfully built by any constructor
function satisfies the frame invariant `teleWF`: the frame size is the
command's payload size plus 4 (hence 4..12 bytes), the 3-bit PSI field
split over bytes 1 and 2 equals `min payload_size 7`, and the final byte
is the checksum of all preceding bytes. -/
theorem claim_C6_frame_invariant :
    (∀ crc addr t, aoosp_con_reset crc addr = .ok t → teleWF crc 0 t) ∧
    (∀ crc addr t, aoosp_con_initbidir crc addr = .ok t → teleWF crc 0 t) ∧
    (∀ crc addr t, aoosp_con_initloop crc addr = .ok t → teleWF crc 0 t) ∧
    (∀ crc addr t, aoosp_con_readmult crc addr = .ok t → teleWF crc 0 t) ∧
    (∀ crc addr groups t, aoosp_con_setmult crc addr groups = .ok t → teleWF crc 2 t) ∧
    (∀ crc addr daddr7 raddr count t,
      aoosp_con_i2cread8 crc addr daddr7 raddr count = .ok t → teleWF crc 3 t) ∧
    (∀ crc addr daddr7 raddr buf count t,
      aoosp_con_i2cwrite8 crc addr daddr7 raddr buf count = .ok t →
      teleWF crc (2 + count) t) ∧
    (∀ crc addr t, aoosp_con_readlast crc addr = .ok t → teleWF crc 0 t) ∧
    (∀ crc addr t, aoosp_con_readi2ccfg crc addr = .ok t → teleWF crc 0 t) ∧
    (∀ crc addr flags speed t,
      aoosp_con_seti2ccfg crc addr flags speed = .ok t → teleWF crc 1 t) ∧
    (∀ crc addr otpaddr t, aoosp_con_readotp crc addr otpaddr = .ok t → teleWF crc 1 t) ∧
    (∀ crc addr otpaddr buf size t,
      aoosp_con_setotp crc addr otpaddr buf size = .ok t → teleWF crc 8 t) ∧
    (∀ crc addr pw t, aoosp_con_settestpw crc addr pw = .ok t → teleWF crc 6 t) := by
  refine ⟨?_, ?_, ?_, ?_, ?_, ?_, ?_, ?_, ?_, ?_, ?_, ?_, ?_⟩
  · intro crc addr t h
    unfold aoosp_con_reset at h
    split_ifs at h <;> simp at h
    subst h
    exact mkTele_wf _ _ _ _ _ (by omega) (by omega) (by simp)
  · intro crc addr t h
    unfold aoosp_con_initbidir at h
    split_ifs at h <;> simp at h
    subst h
    exact mkTele_wf _ _ _ _ _ (by omega) (by omega) (by simp)
  · intro crc addr t h
    unfold aoosp_con_initloop at h
    split_ifs at h <;> simp at h
    subst h
    exact mkTele_wf _ _ _ _ _ (by omega) (by omega) (by simp)
  · intro crc addr t h
    unfold aoosp_con_readmult at h
    split_ifs at h <;> simp at h
    subst h
    exact mkTele_wf _ _ _ _ _ (by omega) (by omega) (by simp)
  · intro crc addr groups t h
    unfold aoosp_con_setmult at h
    split_ifs at h <;> simp at h
    subst h
    exact mkTele_wf _ _ _ _ _ (by omega) (by omega) (by simp)
  · intro crc addr daddr7 raddr count t h
    unfold aoosp_con_i2cread8 at h
    split_ifs at h <;> simp at h
    subst h
    exact mkTele_wf _ _ _ _ _ (by omega) (by omega) (by simp)
  · intro crc addr daddr7 raddr buf count t h
    unfold aoosp_con_i2cwrite8 at h
    split_ifs at h with h1 h2 h3 h4 h5 <;> simp at h
    subst h
    exact mkTele_wf _ _ _ _ _ (by omega) (by omega) (by simp; omega)
  · intro crc addr t h
    unfold aoosp_con_readlast at h
    split_ifs at h <;> simp at h
    subst h
    exact mkTele_wf _ _ _ _ _ (by omega) (by omega) (by simp)
  · intro crc addr t h
    unfold aoosp_con_readi2ccfg at h
    split_ifs at h <;> simp at h
    subst h
    exact mkTele_wf _ _ _ _ _ (by omega) (by omega) (by simp)
  · intro crc addr flags speed t h
    unfold aoosp_con_seti2ccfg at h
    split_ifs at h <;> simp at h
    subst h
    exact mkTele_wf _ _ _ _ _ (by omega) (by omega) (by simp)
  · intro crc addr otpaddr t h
    unfold aoosp_con_readotp at h
    split_ifs at h <;> simp at h
    subst h
    exact mkTele_wf _ _ _ _ _ (by omega) (by omega) (by simp)
  · intro crc addr otpaddr buf size t h
    unfold aoosp_con_setotp at h
    split_ifs at h <;> simp at h
    subst h
    exact mkTele_wf _ _ _ _ _ (by omega) (by omega) (by simp)
  · intro crc addr pw t h
    unfold aoosp_con_settestpw at h
    split_ifs at h <;> simp at h
    subst h
    exact mkTele_wf _ _ _ _ _ (by omega) (by omega) (by simp)

/-- Closed instance of claim C6: the concrete RESET frame for address 1
satisfies the frame invariant. -/
theorem claim_C6_frame_invariant_witness : teleWF crc0 0 [160, 4, 0, 0] :=
  claim_C6_frame_invariant.1 crc0 1 [160, 4, 0, 0] rfl

/-- The frame-size check of the decoders, as an order-independent
predicate. -/
def sizeOk (tele : Tele) (ps : Nat) : Prop := tele.size = 4 + ps

/-- The PSI-consistency check of the decoders. -/
def psiOk (tele : Tele) (ps : Nat) : Prop := TELEPSI tele.data = SIZE2PSI ps

/-- The preamble-nibble check of the decoders. -/
def preambleOk (tele : Tele) : Prop := BITS_SLICE (tele.data.getD 0 0) 4 8 = 0xA

/-- The telegram-id check of the decoders. -/
def tidOk (tele : Tele) (tid : Nat) : Prop := BITS_SLICE (tele.data.getD 2 0) 0 7 = tid

/-- The checksum check of the decoders: the checksum of the entire
received frame must be zero. -/
def crcOk (crc : List Nat → Nat) (tele : Tele) : Prop := crc (tele.data.take tele.size) = 0

/-- Counterexample to claim C7: a 5-byte all-zero frame offered to the
INITBIDIR decoder fails both the preamble check and the size check, yet
the decoder reports the size error, not the preamble error - the code
checks size and PSI before the preamble. -/
theorem claim_C7_counterexample :
    aoosp_des_initbidir crc0 ⟨[0x00, 0x00, 0x00, 0x00, 0x00], 5⟩ =
      Except.error aoresult.osp_size ∧
    ¬ preambleOk ⟨[0x00, 0x00, 0x00, 0x00, 0x00], 5⟩ ∧
    ¬ sizeOk ⟨[0x00, 0x00, 0x00, 0x00, 0x00], 5⟩ 2 ∧
    aoresult.osp_size ≠ aoresult.osp_preamble := by
  refine ⟨rfl, by unfold preambleOk; decide, by unfold sizeOk; decide, by decide⟩

/-- Amended claim C7: every response decoder validates the received frame
in the order size, payload-size indicator, preamble nibble, command
identifier, checksum-of-entire-frame; when a frame fails several checks
at once, the error kind returned is that of the earliest check in this
order.  Shown for the shared check prelude and, through it, for the two
cited decoders. -/
theorem claim_C7_check_order (crc : List Nat → Nat) (tele : Tele) (ps tid : Nat) :
    (¬ sizeOk tele ps → desChecks crc tele ps tid = some aoresult.osp_size) ∧
    (sizeOk tele ps → ¬ psiOk tele ps →
      desChecks crc tele ps tid = some aoresult.osp_psi) ∧
    (sizeOk tele ps → psiOk tele ps → ¬ preambleOk tele →
      desChecks crc tele ps tid = some aoresult.osp_preamble) ∧
    (sizeOk tele ps → psiOk tele ps → preambleOk tele → ¬ tidOk tele tid →
      desChecks crc tele ps tid = some aoresult.osp_tid) ∧
    (sizeOk tele ps → psiOk tele ps → preambleOk tele → tidOk tele tid →
      ¬ crcOk crc tele → desChecks crc tele ps tid = some aoresult.osp_crc) ∧
    (sizeOk tele ps → psiOk tele ps → preambleOk tele → tidOk tele tid →
      crcOk crc tele → desChecks crc tele ps tid = none) ∧
    (∀ e, desChecks crc tele 2 0x02 = some e →
      aoosp_des_initbidir crc tele = Except.error e) ∧
    (∀ e, desChecks crc tele 8 0x58 = some e →
      ∀ size, aoosp_des_readotp crc tele size = Except.error e) := by
  refine ⟨?_, ?_, ?_, ?_, ?_, ?_, ?_, ?_⟩
  · intro h; unfold desChecks sizeOk at *; split_ifs <;> simp_all
  · intro h1 h2; unfold desChecks sizeOk psiOk at *; split_ifs <;> simp_all
  · intro h1 h2 h3
    unfold desChecks sizeOk psiOk preambleOk at *; split_ifs <;> simp_all
  · intro h1 h2 h3 h4
    unfold desChecks sizeOk psiOk preambleOk tidOk at *; split_ifs <;> simp_all
  · intro h1 h2 h3 h4 h5
    unfold desChecks sizeOk psiOk preambleOk tidOk crcOk at *; split_ifs <;> simp_all
  · intro h1 h2 h3 h4 h5
    unfold desChecks sizeOk psiOk preambleOk tidOk crcOk at *; split_ifs <;> simp_all
  · intro e he; unfold aoosp_des_initbidir; rw [he]
  · intro e he size; unfold aoosp_des_readotp; rw [he]

/-- Closed instance of the amended claim C7 at the counterexample frame:
the shared check prelude reports the size error first. -/
theorem claim_C7_check_order_witness :
    desChecks crc0 ⟨[0x00, 0x00, 0x00, 0x00, 0x00], 5⟩ 2 0x02 =
      some aoresult.osp_size :=
  (claim_C7_check_order crc0 ⟨[0x00, 0x00, 0x00, 0x00, 0x00], 5⟩ 2 0x02).1
    (by unfold sizeOk; decide)

/-- The preamble nibble of an assembled frame is 0xA. -/
theorem mkTele_preamble (crc : List Nat → Nat) (addr ps tid : Nat) (payload : List Nat)
    (haddr : addr < 1024) :
    BITS_SLICE ((mkTele crc addr ps tid payload).getD 0 0) 4 8 = 0xA := by
  unfold mkTele
  simp only [List.getD_cons_zero]
  have hs : BITS_SLICE addr 6 10 < 16 := by
    rw [BITS_SLICE_eq]; exact Nat.mod_lt _ (by norm_num)
  rw [lor_A0_eq_add _ hs, BITS_SLICE_eq]
  norm_num
  omega

/-- The 7-bit command identifier of an assembled frame reads back. -/
theorem mkTele_tid_field (crc : List Nat → Nat) (addr ps tid : Nat) (payload : List Nat)
    (htid : tid < 128) :
    BITS_SLICE ((mkTele crc addr ps tid payload).getD 2 0) 0 7 = tid := by
  unfold mkTele
  simp only [List.getD_cons_succ, List.getD_cons_zero]
  have hb : tid < 2 ^ 7 := by simpa using htid
  rw [lor_shift_eq_add _ _ 7 hb, BITS_SLICE_eq]
  norm_num
  omega

/-- The 10-bit address field of an assembled frame reads back through the
`last` extraction of the INIT decoders. -/
theorem mkTele_last_field (crc : List Nat → Nat) (addr ps tid : Nat) (payload : List Nat)
    (haddr : addr < 1024) :
    BITS_SLICE ((mkTele crc addr ps tid payload).getD 0 0) 0 4 <<< 6 |||
      BITS_SLICE ((mkTele crc addr ps tid payload).getD 1 0) 2 8 = addr := by
  unfold mkTele
  simp only [List.getD_cons_succ, List.getD_cons_zero]
  have hs0 : BITS_SLICE addr 6 10 < 16 := by
    rw [BITS_SLICE_eq]; exact Nat.mod_lt _ (by norm_num)
  have hs3 : BITS_SLICE (SIZE2PSI ps) 1 3 < 2 ^ 2 := by
    rw [BITS_SLICE_eq]; exact Nat.mod_lt _ (by norm_num)
  rw [lor_A0_eq_add _ hs0, lor_shift_eq_add _ _ 2 hs3]
  have hb : BITS_SLICE (BITS_SLICE addr 0 6 * 2 ^ 2 + BITS_SLICE (SIZE2PSI ps) 1 3) 2 8 <
      2 ^ 6 := by
    rw [BITS_SLICE_eq]; exact Nat.mod_lt _ (by norm_num)
  rw [lor_shift_eq_add _ _ 6 hb]
  simp only [BITS_SLICE_eq]
  norm_num
  omega

/-- The checksum collaborator contract makes the checksum of a whole
assembled frame zero. -/
theorem mkTele_crc_zero (crc : List Nat → Nat) (hcrc : ∀ l, crc (l ++ [crc l]) = 0)
    (addr ps tid : Nat) (payload : List Nat) :
    crc (mkTele crc addr ps tid payload) = 0 := by
  unfold mkTele
  have h := hcrc ((0xA0 ||| BITS_SLICE addr 6 10) ::
    (BITS_SLICE addr 0 6 <<< 2 ||| BITS_SLICE (SIZE2PSI ps) 1 3) ::
    (BITS_SLICE (SIZE2PSI ps) 0 1 <<< 7 ||| tid) :: payload)
  simpa using h

/-- An assembled frame with the matching expected payload size and
telegram id passes all destructor checks. -/
theorem desChecks_mkTele (crc : List Nat → Nat) (hcrc : ∀ l, crc (l ++ [crc l]) = 0)
    (addr ps tid sz : Nat) (payload : List Nat) (haddr : addr < 1024) (hps : ps ≤ 8)
    (htid : tid < 128) (hlen : payload.length = ps) (hsz : sz = 4 + ps) :
    desChecks crc ⟨mkTele crc addr ps tid payload, sz⟩ ps tid = none := by
  obtain ⟨hlen2, _, _, hpsi, _⟩ := mkTele_wf crc addr ps tid payload hps htid hlen
  have htake : (mkTele crc addr ps tid payload).take sz = mkTele crc addr ps tid payload :=
    List.take_of_length_le (by omega)
  unfold desChecks
  rw [if_neg (by simp [hsz])]
  rw [if_neg (by simp [hpsi, SIZE2PSI_eq_min ps hps])]
  rw [if_neg (by
    simp only [ne_eq, Decidable.not_not]
    exact mkTele_preamble crc addr ps tid payload haddr)]
  rw [if_neg (by
    simp only [ne_eq, Decidable.not_not]
    exact mkTele_tid_field crc addr ps tid payload htid)]
  rw [if_neg (by simp [htake, mkTele_crc_zero crc hcrc addr ps tid payload])]

/-- Claim C9: decoding an encoded frame returns exactly the payload field
values that were encoded.  For any checksum collaborator satisfying its
contract: the 10-bit address/`last` field round-trips through the frame
header via the INITBIDIR decoder; the 15-bit group mask encoded by
`aoosp_con_setmult` round-trips through the READMULT field decoder; and
the flags/speed nibbles encoded by `aoosp_con_seti2ccfg` round-trip
through the READI2CCFG field decoder. -/
theorem claim_C9_codec_roundtrip (crc : List Nat → Nat)
    (hcrc : ∀ l, crc (l ++ [crc l]) = 0) :
    (∀ addr temp stat, AOOSP_ADDR_ISOK addr = true →
      aoosp_des_initbidir crc ⟨mkTele crc addr 2 0x02 [temp, stat], 6⟩ =
        Except.ok (addr, temp, stat)) ∧
    (∀ addr addr2 groups, AOOSP_ADDR_ISOK addr = true → AOOSP_ADDR_ISOK addr2 = true →
      groups ≤ 0x7FFF →
      (aoosp_con_setmult crc addr groups =
        Except.ok (mkTele crc addr 2 0x0D
          [BITS_SLICE groups 8 16, BITS_SLICE groups 0 8]) ∧
       aoosp_des_readmult crc
          ⟨mkTele crc addr2 2 0x0C [BITS_SLICE groups 8 16, BITS_SLICE groups 0 8], 6⟩ =
        Except.ok groups)) ∧
    (∀ addr addr2 flags speed, AOOSP_ADDR_ISOK addr = true →
      AOOSP_ADDR_ISOK addr2 = true → flags ≤ 0x0F → 1 ≤ speed → speed ≤ 0x0F →
      (aoosp_con_seti2ccfg crc addr flags speed =
        Except.ok (mkTele crc addr 1 0x57 [flags <<< 4 ||| speed]) ∧
       aoosp_des_readi2ccfg crc ⟨mkTele crc addr2 1 0x56 [flags <<< 4 ||| speed], 5⟩ =
        Except.ok (flags, speed))) := by
  refine ⟨?_, ?_, ?_⟩
  · intro addr temp stat haddr
    have h10 := addr_lt_of_isok addr haddr
    unfold aoosp_des_initbidir
    rw [desChecks_mkTele crc hcrc addr 2 0x02 6 [temp, stat] h10 (by omega) (by omega)
      (by simp) (by omega)]
    dsimp only
    rw [mkTele_last_field crc addr 2 0x02 [temp, stat] h10]
    simp [mkTele]
  · intro addr addr2 groups haddr haddr2 hg
    have h1 := addr_lt_of_isok addr haddr
    have h2 := addr_lt_of_isok addr2 haddr2
    constructor
    · unfold aoosp_con_setmult
      rw [haddr]
      rw [if_neg (by simp), if_neg (by omega)]
    · unfold aoosp_des_readmult
      rw [desChecks_mkTele crc hcrc addr2 2 0x0C 6
        [BITS_SLICE groups 8 16, BITS_SLICE groups 0 8] h2 (by omega) (by omega)
        (by simp) (by omega)]
      dsimp only
      have e3 : (mkTele crc addr2 2 0x0C
          [BITS_SLICE groups 8 16, BITS_SLICE groups 0 8]).getD 3 0 =
          BITS_SLICE groups 8 16 := by simp [mkTele]
      have e4 : (mkTele crc addr2 2 0x0C
          [BITS_SLICE groups 8 16, BITS_SLICE groups 0 8]).getD 4 0 =
          BITS_SLICE groups 0 8 := by simp [mkTele]
      rw [e3, e4, Nat.shiftLeft_zero]
      have hb : BITS_SLICE groups 0 8 < 2 ^ 8 := by
        rw [BITS_SLICE_eq]; exact Nat.mod_lt _ (by norm_num)
      rw [lor_shift_eq_add _ _ 8 hb]
      simp only [BITS_SLICE_eq, Except.ok.injEq]
      norm_num
      omega
  · intro addr addr2 flags speed haddr haddr2 hf hs1 hs
    have h1 := addr_lt_of_isok addr haddr
    have h2 := addr_lt_of_isok addr2 haddr2
    constructor
    · unfold aoosp_con_seti2ccfg
      rw [haddr]
      rw [if_neg (by simp), if_neg (by omega), if_neg (by omega), if_neg (by omega)]
    · unfold aoosp_des_readi2ccfg
      rw [desChecks_mkTele crc hcrc addr2 1 0x56 5 [flags <<< 4 ||| speed] h2 (by omega)
        (by omega) (by simp) (by omega)]
      dsimp only
      have e3 : (mkTele crc addr2 1 0x56 [flags <<< 4 ||| speed]).getD 3 0 =
          flags <<< 4 ||| speed := by simp [mkTele]
      rw [e3]
      have hsp : speed < 2 ^ 4 := by norm_num; omega
      rw [lor_shift_eq_add _ _ 4 hsp]
      simp only [BITS_SLICE_eq, Except.ok.injEq, Prod.mk.injEq]
      norm_num
      constructor <;> omega

/-- Closed instance of claim C9: the INITBIDIR response frame built for
address 1 with payload bytes 2, 3 decodes back to exactly those values. -/
theorem claim_C9_codec_roundtrip_witness :
    aoosp_des_initbidir crc0 ⟨mkTele crc0 1 2 0x02 [2, 3], 6⟩ = Except.ok (1, 2, 3) :=
  (claim_C9_codec_roundtrip crc0 (fun _ => rfl)).1 1 2 3 rfl

/-- Claim C8: in `aoosp_exec_setotp` the 7-byte row written back differs
from the 8-byte row read only in byte 0, which becomes
`(old & andmask) | ormask` (part a); and at the wire level the reversal
done by the READOTP decoder and the reversal done by the SETOTP encoder
cancel: the byte the write frame carries for row offset `i`
(`data[9-i]`) equals the byte the read response carried for the same row
offset (`data[10-i]`) for offsets 1..6, while offset 0 carries the masked
byte (parts b, c, d). -/
theorem claim_C8_setotp_row_roundtrip (crc : List Nat → Nat)
    (hcrc : ∀ l, crc (l ++ [crc l]) = 0)
    (env : Env) (addr a2 otpaddr ormask andmask : Nat)
    (b0 b1 b2 b3 b4 b5 b6 b7 p0 p1 p2 p3 p4 p5 p6 p7 : Nat)
    (haddr : AOOSP_ADDR_ISOK addr = true) (ha2 : a2 < 1024)
    (hrow1 : 0x0D ≤ otpaddr) (hrow2 : otpaddr ≤ 0x1F)
    (hacq : env.settestpw addr env.testpw = aoresult.ok)
    (hread : env.readotp addr otpaddr =
      (aoresult.ok, [b0, b1, b2, b3, b4, b5, b6, b7])) :
    Event.setotp addr otpaddr
        [b0 &&& andmask ||| ormask, b1, b2, b3, b4, b5, b6] ∈
      (aoosp_exec_setotp env addr otpaddr ormask andmask).trace ∧
    aoosp_des_readotp crc
        ⟨mkTele crc a2 8 0x58 [p0, p1, p2, p3, p4, p5, p6, p7], 12⟩ 8 =
      Except.ok [p7, p6, p5, p4, p3, p2, p1, p0] ∧
    aoosp_con_setotp crc addr otpaddr
        [p7 &&& andmask ||| ormask, p6, p5, p4, p3, p2, p1] 7 =
      Except.ok (mkTele crc addr 8 0x59
        [p1, p2, p3, p4, p5, p6, p7 &&& andmask ||| ormask, otpaddr]) ∧
    (mkTele crc addr 8 0x59
        [p1, p2, p3, p4, p5, p6, p7 &&& andmask ||| ormask, otpaddr]).getD 9 0 =
      ((mkTele crc a2 8 0x58 [p0, p1, p2, p3, p4, p5, p6, p7]).getD 10 0 &&& andmask |||
        ormask) ∧
    (∀ i, 1 ≤ i → i ≤ 6 →
      (mkTele crc addr 8 0x59
          [p1, p2, p3, p4, p5, p6, p7 &&& andmask ||| ormask, otpaddr]).getD (9 - i) 0 =
        (mkTele crc a2 8 0x58 [p0, p1, p2, p3, p4, p5, p6, p7]).getD (10 - i) 0) := by
  refine ⟨?_, ?_, ?_, ?_, ?_⟩
  · unfold aoosp_exec_setotp
    rw [if_neg (by omega)]
    simp [hacq, hread]
    split_ifs <;> simp
  · unfold aoosp_des_readotp
    rw [desChecks_mkTele crc hcrc a2 8 0x58 12 [p0, p1, p2, p3, p4, p5, p6, p7] ha2
      (by omega) (by omega) (by simp) (by omega)]
    rfl
  · unfold aoosp_con_setotp
    rw [haddr]
    rw [if_neg (by simp), if_neg (by omega)]
    rfl
  · rfl
  · intro i h1 h2
    interval_cases i <;> rfl

/-- Closed instance of claim C8 at a concrete oracle, row and masks. -/
theorem claim_C8_setotp_row_roundtrip_witness :
    Event.setotp 1 13 [1 &&& 254 ||| 1, 2, 3, 4, 5, 6, 7] ∈
      (aoosp_exec_setotp env0 1 13 1 254).trace ∧
    aoosp_des_readotp crc0
        ⟨mkTele crc0 2 8 0x58 [11, 12, 13, 14, 15, 16, 17, 18], 12⟩ 8 =
      Except.ok [18, 17, 16, 15, 14, 13, 12, 11] ∧
    aoosp_con_setotp crc0 1 13 [18 &&& 254 ||| 1, 17, 16, 15, 14, 13, 12] 7 =
      Except.ok (mkTele crc0 1 8 0x59
        [12, 13, 14, 15, 16, 17, 18 &&& 254 ||| 1, 13]) ∧
    (mkTele crc0 1 8 0x59 [12, 13, 14, 15, 16, 17, 18 &&& 254 ||| 1, 13]).getD 9 0 =
      ((mkTele crc0 2 8 0x58 [11, 12, 13, 14, 15, 16, 17, 18]).getD 10 0 &&& 254 |||
        1) ∧
    (∀ i, 1 ≤ i → i ≤ 6 →
      (mkTele crc0 1 8 0x59
          [12, 13, 14, 15, 16, 17, 18 &&& 254 ||| 1, 13]).getD (9 - i) 0 =
        (mkTele crc0 2 8 0x58 [11, 12, 13, 14, 15, 16, 17, 18]).getD (10 - i) 0) :=
  claim_C8_setotp_row_roundtrip crc0 (fun _ => rfl) env0 1 2 13 1 254
    1 2 3 4 5 6 7 8 11 12 13 14 15 16 17 18 rfl (by decide) (by decide) (by decide)
    rfl rfl
